import Mathlib

/-!
Verification development for a hotel-reservation ledger consisting of three
file-backed stores (customers, hotels, reservations) with CRUD operations and
a cross-store reservation protocol.

Modelling conventions:
* Each persisted JSON store (a dict keyed by a unique string) is modelled as an
  association list `List (String × α)`.  Python dict indexing `d[k] = v`
  replaces the entry in place when the key is present and appends otherwise
  (`upsert`); `del d[k]` removes the entry (`eraseKey`); `k in d` is
  `(lookupA k d).isSome`.
* Every mutating operation in the source loads the store from its file, mutates
  an in-memory dict and calls `_save` only as its final statement.  An uncaught
  `raise` therefore always leaves the persisted file untouched.  We model each
  operation as returning `Except Err <new store>`: `.error e` corresponds to a
  `raise` before any save, so the persisted store is the unchanged input.
* The source raises `ValueError` with distinct messages; the error taxonomy
  (InvalidInput, AlreadyExists, NotFound, CapacityExceeded, InvalidState)
  classifies the raise sites.  Message texts follow the source, except that the
  single-quote characters around interpolated names are elided.
* Hotel records persisted by the operations always contain the
  `reserved_rooms` key (every write goes through `to_dict`, which includes it);
  store entries are therefore modelled with a total `reserved_rooms` field.
  The `.get("reserved_rooms", 0)` default for legacy input is modelled at the
  deserialization boundary (`Hotel.from_dict` on `HotelDict`).
* Python integers are unbounded, so `total_rooms`/`reserved_rooms` are `Int`.
-/

/-- Error taxonomy of the raise sites, each carrying the raised message. -/
inductive Err : Type where
  | invalidInput (msg : String)
  | alreadyExists (msg : String)
  | notFound (msg : String)
  | capacityExceeded (msg : String)
  | invalidState (msg : String)
  deriving DecidableEq, Repr

/-- First-match lookup in an association list, i.e. Python `d[k]` / `k in d`
on a dict with unique keys. -/
def lookupA {α : Type} (k : String) : List (String × α) → Option α
  | [] => none
  | (k', v) :: rest => if k' = k then some v else lookupA k rest

/-- Python `d[k] = v`: replace in place when the key is present, append
otherwise. -/
def upsert {α : Type} (k : String) (v : α) : List (String × α) → List (String × α)
  | [] => [(k, v)]
  | (k', v') :: rest => if k' = k then (k, v) :: rest else (k', v') :: upsert k v rest

/-- Python `del d[k]`: remove the (first) entry with the given key. -/
def eraseKey {α : Type} (k : String) : List (String × α) → List (String × α)
  | [] => []
  | (k', v') :: rest => if k' = k then rest else (k', v') :: eraseKey k rest

/-- The key list of a store (Python `d.keys()`). -/
def keysOf {α : Type} (l : List (String × α)) : List String := l.map Prod.fst

/-! ### Records -/

/-- A customer record as persisted by `Customer.to_dict`. -/
structure Customer where
  customer_id : String
  name : String
  email : String
  deriving DecidableEq, Repr

/-- A hotel record as persisted by `Hotel.to_dict`. -/
structure Hotel where
  name : String
  location : String
  total_rooms : Int
  reserved_rooms : Int
  deriving DecidableEq, Repr

/-- A reservation record as persisted by `Reservation.to_dict`. -/
structure Reservation where
  reservation_id : String
  customer_id : String
  hotel_name : String
  deriving DecidableEq, Repr

abbrev CustomerStore := List (String × Customer)
abbrev HotelStore := List (String × Hotel)
abbrev ResStore := List (String × Reservation)

/-! ### Customer operations (`customer.py`) -/

/-- Source `Customer.create_customer`: validate the three fields non-empty, reject a
duplicate id, insert and persist. -/
def create_customer (customers : CustomerStore) (customer_id name email : String) :
    Except Err CustomerStore :=
  if customer_id = "" then
    .error (.invalidInput "Customer ID must be a non-empty string.")
  else if name = "" then
    .error (.invalidInput "Name must be a non-empty string.")
  else if email = "" then
    .error (.invalidInput "Email must be a non-empty string.")
  else if (lookupA customer_id customers).isSome then
    .error (.alreadyExists ("Customer " ++ customer_id ++ " already exists."))
  else
    .ok (upsert customer_id ⟨customer_id, name, email⟩ customers)

/-- Source `Customer.delete_customer`: remove the record, NotFound when absent. -/
def delete_customer (customers : CustomerStore) (customer_id : String) :
    Except Err CustomerStore :=
  if (lookupA customer_id customers).isNone then
    .error (.notFound ("Customer " ++ customer_id ++ " not found."))
  else
    .ok (eraseKey customer_id customers)

/-- Source `Customer.modify_customer`: NotFound when absent; each provided optional
field is validated non-empty and applied in order (name first, then email);
the store is saved only after both checks pass. -/
def modify_customer (customers : CustomerStore) (customer_id : String)
    (new_name new_email : Option String) : Except Err CustomerStore :=
  match lookupA customer_id customers with
  | none => .error (.notFound ("Customer " ++ customer_id ++ " not found."))
  | some c =>
    match new_name with
    | some nm =>
      if nm = "" then .error (.invalidInput "Name must be a non-empty string.")
      else
        let c1 : Customer := { c with name := nm }
        match new_email with
        | some em =>
          if em = "" then .error (.invalidInput "Email must be a non-empty string.")
          else .ok (upsert customer_id { c1 with email := em } customers)
        | none => .ok (upsert customer_id c1 customers)
    | none =>
      match new_email with
      | some em =>
        if em = "" then .error (.invalidInput "Email must be a non-empty string.")
        else .ok (upsert customer_id { c with email := em } customers)
      | none => .ok (upsert customer_id c customers)

/-! ### Hotel operations (`hotel.py`) -/

/-- Source `Hotel.create_hotel`: validate name/location non-empty and
`total_rooms > 0`, reject a duplicate name, insert with `reserved_rooms = 0`
and persist. -/
def create_hotel (hotels : HotelStore) (name location : String) (total_rooms : Int) :
    Except Err HotelStore :=
  if name = "" then
    .error (.invalidInput "Hotel name must be a non-empty string.")
  else if location = "" then
    .error (.invalidInput "Location must be a non-empty string.")
  else if total_rooms ≤ 0 then
    .error (.invalidInput "Total rooms must be a positive integer.")
  else if (lookupA name hotels).isSome then
    .error (.alreadyExists ("Hotel " ++ name ++ " already exists."))
  else
    .ok (upsert name ⟨name, location, total_rooms, 0⟩ hotels)

/-- Source `Hotel.delete_hotel`: remove the record, NotFound when absent. -/
def delete_hotel (hotels : HotelStore) (name : String) : Except Err HotelStore :=
  if (lookupA name hotels).isNone then
    .error (.notFound ("Hotel " ++ name ++ " not found."))
  else
    .ok (eraseKey name hotels)

/-- The `if new_location is not None` block of `modify_hotel`. -/
def apply_location (h0 : Hotel) (new_location : Option String) : Except Err Hotel :=
  match new_location with
  | some loc =>
    if loc = "" then .error (.invalidInput "Location must be a non-empty string.")
    else .ok { h0 with location := loc }
  | none => .ok h0

/-- The `if new_total_rooms is not None` block of `modify_hotel`. -/
def apply_total_rooms (h1 : Hotel) (new_total_rooms : Option Int) : Except Err Hotel :=
  match new_total_rooms with
  | some tr =>
    if tr ≤ 0 then .error (.invalidInput "Total rooms must be a positive integer.")
    else if tr < h1.reserved_rooms then
      .error (.invalidInput "Cannot set total rooms below reserved rooms.")
    else .ok { h1 with total_rooms := tr }
  | none => .ok h1

/-- The `if new_name is not None and new_name != name` block of `modify_hotel`,
plus the final write-back: on a rename the entry is moved
(`del hotels[name]; hotels[new_name] = hotel_data`), otherwise the updated
record is written back under the same key. -/
def apply_rename (hotels : HotelStore) (name : String) (h2 : Hotel)
    (new_name : Option String) : Except Err HotelStore :=
  match new_name with
  | some nn =>
    if nn ≠ name then
      if nn = "" then .error (.invalidInput "Hotel name must be a non-empty string.")
      else if (lookupA nn hotels).isSome then
        .error (.alreadyExists ("Hotel " ++ nn ++ " already exists."))
      else
        .ok (upsert nn { h2 with name := nn } (eraseKey name hotels))
    else
      .ok (upsert name h2 hotels)
  | none => .ok (upsert name h2 hotels)

/-- Source `Hotel.modify_hotel`: NotFound when absent; then in order: optional
location update (validated non-empty), optional total_rooms update (validated
positive and not below `reserved_rooms`), optional rename (only when the new
name differs; validated non-empty and not already a key).  Saved only at the
end, so any raise leaves the persisted store untouched. -/
def modify_hotel (hotels : HotelStore) (name : String)
    (new_name new_location : Option String) (new_total_rooms : Option Int) :
    Except Err HotelStore :=
  match lookupA name hotels with
  | none => .error (.notFound ("Hotel " ++ name ++ " not found."))
  | some h0 =>
    match apply_location h0 new_location with
    | .error e => .error e
    | .ok h1 =>
      match apply_total_rooms h1 new_total_rooms with
      | .error e => .error e
      | .ok h2 => apply_rename hotels name h2 new_name

/-- Source `Hotel.reserve_room`: NotFound when absent; CapacityExceeded
("No available rooms at ...") when `reserved_rooms >= total_rooms`; otherwise
increment `reserved_rooms` by one and persist. -/
def reserve_room (hotels : HotelStore) (name : String) : Except Err HotelStore :=
  match lookupA name hotels with
  | none => .error (.notFound ("Hotel " ++ name ++ " not found."))
  | some h =>
    if h.reserved_rooms ≥ h.total_rooms then
      .error (.capacityExceeded ("No available rooms at " ++ name ++ "."))
    else
      .ok (upsert name { h with reserved_rooms := h.reserved_rooms + 1 } hotels)

/-- Source `Hotel.cancel_room`: NotFound when absent; InvalidState
("No reservations to cancel at ...") when `reserved_rooms <= 0`; otherwise
decrement `reserved_rooms` by one and persist. -/
def cancel_room (hotels : HotelStore) (name : String) : Except Err HotelStore :=
  match lookupA name hotels with
  | none => .error (.notFound ("Hotel " ++ name ++ " not found."))
  | some h =>
    if h.reserved_rooms ≤ 0 then
      .error (.invalidState ("No reservations to cancel at " ++ name ++ "."))
    else
      .ok (upsert name { h with reserved_rooms := h.reserved_rooms - 1 } hotels)

/-! ### Reservation operations (`reservation.py`)

The reservation protocol touches two persisted stores (hotels and its own), so
its operations act on the combined persisted state.  `reserve_room` /
`cancel_room` save the hotels file themselves on success; a raise anywhere
leaves every file unchanged, hence `.error` returns alongside the unchanged
combined state. -/

/-- The combined persisted state of the three store files. -/
structure SysState where
  customers : CustomerStore
  hotels : HotelStore
  reservations : ResStore
  deriving DecidableEq, Repr

/-- Source `Reservation.create_reservation`: NotFound when the customer or the hotel
is absent; then `Hotel.reserve_room` (whose failure propagates with nothing
persisted); on success a record keyed by the generated id (`gen_id`, modelling
`str(uuid.uuid4())[:8]`) is inserted and persisted.  Returns the resulting
persisted state together with the outcome. -/
def create_reservation (s : SysState) (customer_id hotel_name gen_id : String) :
    SysState × Except Err Reservation :=
  if (lookupA customer_id s.customers).isNone then
    (s, .error (.notFound ("Customer " ++ customer_id ++ " not found.")))
  else if (lookupA hotel_name s.hotels).isNone then
    (s, .error (.notFound ("Hotel " ++ hotel_name ++ " not found.")))
  else
    match reserve_room s.hotels hotel_name with
    | .error e => (s, .error e)
    | .ok hotels' =>
      let r : Reservation := ⟨gen_id, customer_id, hotel_name⟩
      ({ s with hotels := hotels',
                reservations := upsert gen_id r s.reservations }, .ok r)

/-- Source `Reservation.cancel_reservation`: NotFound when the id is absent;
otherwise `Hotel.cancel_room` on the record's captured `hotel_name` (whose
failure propagates with nothing persisted, the record left in place); on
success the record is removed and persisted. -/
def cancel_reservation (s : SysState) (reservation_id : String) :
    SysState × Option Err :=
  match lookupA reservation_id s.reservations with
  | none => (s, some (.notFound ("Reservation " ++ reservation_id ++ " not found.")))
  | some r =>
    match cancel_room s.hotels r.hotel_name with
    | .error e => (s, some e)
    | .ok hotels' =>
      ({ s with hotels := hotels',
                reservations := eraseKey reservation_id s.reservations }, none)

/-! ### Serialization (`to_dict` / `from_dict`) -/

/-- The dict shape written by `Customer.to_dict` / read by `Customer.from_dict`. -/
structure CustomerDict where
  customer_id : String
  name : String
  email : String
  deriving DecidableEq, Repr

/-- The dict shape written by `Hotel.to_dict` / read by `Hotel.from_dict`;
`reserved_rooms` may be absent in legacy records (`none`). -/
structure HotelDict where
  name : String
  location : String
  total_rooms : Int
  reserved_rooms : Option Int
  deriving DecidableEq, Repr

/-- The dict shape written by `Reservation.to_dict` / read by
`Reservation.from_dict`. -/
structure ReservationDict where
  reservation_id : String
  customer_id : String
  hotel_name : String
  deriving DecidableEq, Repr

/-- Source `Customer.to_dict`. -/
def Customer.to_dict (c : Customer) : CustomerDict :=
  ⟨c.customer_id, c.name, c.email⟩

/-- Source `Customer.from_dict`. -/
def Customer.from_dict (d : CustomerDict) : Customer :=
  ⟨d.customer_id, d.name, d.email⟩

/-- Source `Hotel.to_dict`: always writes the `reserved_rooms` key. -/
def Hotel.to_dict (h : Hotel) : HotelDict :=
  ⟨h.name, h.location, h.total_rooms, some h.reserved_rooms⟩

/-- Source `Hotel.from_dict`: `data.get("reserved_rooms", 0)` defaults to 0 when the
key is absent. -/
def Hotel.from_dict (d : HotelDict) : Hotel :=
  { name := d.name, location := d.location, total_rooms := d.total_rooms,
    reserved_rooms := d.reserved_rooms.getD 0 }

/-- Source `Reservation.to_dict`. -/
def Reservation.to_dict (r : Reservation) : ReservationDict :=
  ⟨r.reservation_id, r.customer_id, r.hotel_name⟩

/-- Source `Reservation.from_dict`. -/
def Reservation.from_dict (d : ReservationDict) : Reservation :=
  ⟨d.reservation_id, d.customer_id, d.hotel_name⟩

/-! ### The load path (`_load_hotels` / `_load_customers` / `_load_reservations`)

The file system and the JSON parse are modelled at the I/O boundary by a
`FileState`: the file is missing, or present but failing to parse (raising
`json.JSONDecodeError` with some message), or present and well-formed.  A
loader returns the resulting store together with the list of lines printed to
standard output; it returns, never raises. -/

inductive FileState (α : Type) : Type where
  | missing : FileState α
  | corrupt (errMsg : String) : FileState α
  | wellFormed (data : α) : FileState α
  deriving DecidableEq

/-- Source `_load_hotels`: empty store on a missing file; on a parse failure, print a
warning and use the empty store; otherwise the parsed mapping. -/
def load_hotels (fs : FileState HotelStore) : HotelStore × List String :=
  match fs with
  | .missing => ([], [])
  | .corrupt err =>
    ([], ["Warning: hotels file is corrupt (" ++ err ++ "). Using empty store."])
  | .wellFormed data => (data, [])

/-- Source `_load_customers`: same recovery behaviour as `_load_hotels`. -/
def load_customers (fs : FileState CustomerStore) : CustomerStore × List String :=
  match fs with
  | .missing => ([], [])
  | .corrupt err =>
    ([], ["Warning: customers file is corrupt (" ++ err ++ "). Using empty store."])
  | .wellFormed data => (data, [])

/-- Source `_load_reservations`: same recovery behaviour as `_load_hotels`. -/
def load_reservations (fs : FileState ResStore) : ResStore × List String :=
  match fs with
  | .missing => ([], [])
  | .corrupt err =>
    ([], ["Warning: reservations file is corrupt (" ++ err ++ "). Using empty store."])
  | .wellFormed data => (data, [])

/-- The persisted store after an operation: an uncaught raise (`.error`) means
`_save` was never reached, so the file keeps its previous contents. -/
def persistedAfter {α : Type} (store : α) (result : Except Err α) : α :=
  match result with
  | .ok s' => s'
  | .error _ => store

/-! ### Association-list lemmas -/

theorem lookupA_upsert {α : Type} (k k' : String) (v : α) (l : List (String × α)) :
    lookupA k (upsert k' v l) = if k' = k then some v else lookupA k l := by
  induction l with
  | nil => simp [upsert, lookupA]
  | cons p rest ih =>
    obtain ⟨k₀, v₀⟩ := p
    by_cases h₀ : k₀ = k'
    · subst h₀
      by_cases hk : k₀ = k <;> simp [upsert, lookupA, hk]
    · by_cases hk : k₀ = k
      · subst hk
        simp [upsert, lookupA, h₀, Ne.symm h₀]
      · simp [upsert, lookupA, h₀, hk, ih]

theorem upsert_eq_append {α : Type} (k : String) (v : α) (l : List (String × α))
    (h : lookupA k l = none) : upsert k v l = l ++ [(k, v)] := by
  induction l with
  | nil => simp [upsert]
  | cons p rest ih =>
    obtain ⟨k₀, v₀⟩ := p
    by_cases hk : k₀ = k
    · simp [lookupA, hk] at h
    · simp [lookupA, hk] at h
      simp [upsert, hk, ih h]

theorem keysOf_cons {α : Type} (k₀ : String) (v₀ : α) (rest : List (String × α)) :
    keysOf ((k₀, v₀) :: rest) = k₀ :: keysOf rest := rfl

theorem mem_upsert_elim {α : Type} {k : String} {v : α} {p : String × α}
    {l : List (String × α)} (h : p ∈ upsert k v l) : p = (k, v) ∨ p ∈ l := by
  induction l with
  | nil =>
    simp [upsert] at h
    exact Or.inl h
  | cons q rest ih =>
    obtain ⟨k₀, v₀⟩ := q
    by_cases hk : k₀ = k
    · simp [upsert, hk] at h
      rcases h with h | h
      · exact Or.inl h
      · exact Or.inr (List.mem_cons_of_mem _ h)
    · simp [upsert, hk] at h
      rcases h with h | h
      · exact Or.inr (by simp [h])
      · rcases ih h with h' | h'
        · exact Or.inl h'
        · exact Or.inr (List.mem_cons_of_mem _ h')

theorem mem_of_mem_eraseKey {α : Type} {k : String} {p : String × α}
    {l : List (String × α)} (h : p ∈ eraseKey k l) : p ∈ l := by
  induction l with
  | nil => simp [eraseKey] at h
  | cons q rest ih =>
    obtain ⟨k₀, v₀⟩ := q
    by_cases hk : k₀ = k
    · simp [eraseKey, hk] at h
      exact List.mem_cons_of_mem _ h
    · simp [eraseKey, hk] at h
      rcases h with h | h
      · simp [h]
      · exact List.mem_cons_of_mem _ (ih h)

theorem lookupA_some_mem {α : Type} {k : String} {v : α} {l : List (String × α)}
    (h : lookupA k l = some v) : (k, v) ∈ l := by
  induction l with
  | nil => simp [lookupA] at h
  | cons q rest ih =>
    obtain ⟨k₀, v₀⟩ := q
    by_cases hk : k₀ = k
    · subst hk
      simp [lookupA] at h
      simp [h]
    · simp [lookupA, hk] at h
      exact List.mem_cons_of_mem _ (ih h)

theorem lookupA_eq_none_of_not_mem_keys {α : Type} {k : String}
    {l : List (String × α)} (h : k ∉ keysOf l) : lookupA k l = none := by
  induction l with
  | nil => simp [lookupA]
  | cons q rest ih =>
    obtain ⟨k₀, v₀⟩ := q
    rw [keysOf_cons, List.mem_cons] at h
    push_neg at h
    simp [lookupA, Ne.symm h.1, ih h.2]

theorem lookupA_eraseKey_self {α : Type} {k : String} {l : List (String × α)}
    (hnd : (keysOf l).Nodup) : lookupA k (eraseKey k l) = none := by
  induction l with
  | nil => simp [eraseKey, lookupA]
  | cons q rest ih =>
    obtain ⟨k₀, v₀⟩ := q
    rw [keysOf_cons, List.nodup_cons] at hnd
    by_cases hk : k₀ = k
    · subst hk
      simp [eraseKey]
      exact lookupA_eq_none_of_not_mem_keys hnd.1
    · simp [eraseKey, hk, lookupA, ih hnd.2]

theorem keysOf_upsert_of_isSome {α : Type} {k : String} (v : α)
    {l : List (String × α)} (h : (lookupA k l).isSome) :
    keysOf (upsert k v l) = keysOf l := by
  induction l with
  | nil => simp [lookupA] at h
  | cons q rest ih =>
    obtain ⟨k₀, v₀⟩ := q
    by_cases hk : k₀ = k
    · subst hk
      simp [upsert, keysOf_cons]
    · simp [lookupA, hk] at h
      simp only [upsert, if_neg hk, keysOf_cons]
      rw [ih h]

/-! ### Counting reservation records per hotel -/

/-- Number of reservation records whose `hotel_name` field names the given
hotel. -/
def countResFor (name : String) : ResStore → Nat
  | [] => 0
  | (_, r) :: rest => (if r.hotel_name = name then 1 else 0) + countResFor name rest

theorem countResFor_append (name : String) (l₁ l₂ : ResStore) :
    countResFor name (l₁ ++ l₂) = countResFor name l₁ + countResFor name l₂ := by
  induction l₁ with
  | nil => simp [countResFor]
  | cons p rest ih =>
    obtain ⟨k, r⟩ := p
    simp [countResFor, ih]
    omega

theorem countResFor_eq_zero {name : String} {l : ResStore}
    (h : ∀ p ∈ l, p.2.hotel_name ≠ name) : countResFor name l = 0 := by
  induction l with
  | nil => simp [countResFor]
  | cons p rest ih =>
    obtain ⟨k, r⟩ := p
    have h1 : r.hotel_name ≠ name := h (k, r) (List.mem_cons_self _ _)
    simp [countResFor, h1]
    exact ih fun q hq => h q (List.mem_cons_of_mem _ hq)

theorem countResFor_eraseKey {name rid : String} {r : Reservation} {l : ResStore}
    (h : lookupA rid l = some r) :
    countResFor name l =
      countResFor name (eraseKey rid l) + (if r.hotel_name = name then 1 else 0) := by
  induction l with
  | nil => simp [lookupA] at h
  | cons p rest ih =>
    obtain ⟨k, r₀⟩ := p
    by_cases hk : k = rid
    · subst hk
      simp [lookupA] at h
      subst h
      simp [eraseKey, countResFor]
      omega
    · simp [lookupA, hk] at h
      simp [eraseKey, hk, countResFor, ih h]
      omega

/-! ### Inversion lemmas for the operations -/

theorem create_customer_ok {customers : CustomerStore} {cid nm em : String}
    {cs' : CustomerStore} (h : create_customer customers cid nm em = .ok cs') :
    cid ≠ "" ∧ nm ≠ "" ∧ em ≠ "" ∧ lookupA cid customers = none ∧
      cs' = upsert cid ⟨cid, nm, em⟩ customers := by
  unfold create_customer at h
  split_ifs at h with h1 h2 h3 h4
  · refine ⟨h1, h2, h3, ?_, ?_⟩
    · exact Option.not_isSome_iff_eq_none.mp h4
    · exact (Except.ok.injEq _ _).mp h |>.symm

theorem create_hotel_ok {hotels : HotelStore} {nm loc : String} {tr : Int}
    {hs' : HotelStore} (h : create_hotel hotels nm loc tr = .ok hs') :
    nm ≠ "" ∧ loc ≠ "" ∧ 0 < tr ∧ lookupA nm hotels = none ∧
      hs' = upsert nm ⟨nm, loc, tr, 0⟩ hotels := by
  unfold create_hotel at h
  split_ifs at h with h1 h2 h3 h4
  · refine ⟨h1, h2, by omega, Option.not_isSome_iff_eq_none.mp h4, ?_⟩
    exact (Except.ok.injEq _ _).mp h |>.symm

theorem isSome_of_not_isNone {α : Type} {o : Option α} (h : ¬ o.isNone = true) :
    o.isSome := by
  cases o <;> simp_all

theorem reserve_room_ok {hotels : HotelStore} {name : String} {hs' : HotelStore}
    (h : reserve_room hotels name = .ok hs') :
    ∃ hh : Hotel, lookupA name hotels = some hh ∧
      hh.reserved_rooms < hh.total_rooms ∧
      hs' = upsert name { hh with reserved_rooms := hh.reserved_rooms + 1 } hotels := by
  cases hm : lookupA name hotels with
  | none => simp [reserve_room, hm] at h
  | some hh =>
    simp only [reserve_room, hm] at h
    split_ifs at h with hge
    exact ⟨hh, rfl, by omega, by
      refine ((Except.ok.injEq _ _).mp h).symm.trans ?_
      rfl⟩

theorem cancel_room_ok {hotels : HotelStore} {name : String} {hs' : HotelStore}
    (h : cancel_room hotels name = .ok hs') :
    ∃ hh : Hotel, lookupA name hotels = some hh ∧
      0 < hh.reserved_rooms ∧
      hs' = upsert name { hh with reserved_rooms := hh.reserved_rooms - 1 } hotels := by
  cases hm : lookupA name hotels with
  | none => simp [cancel_room, hm] at h
  | some hh =>
    simp only [cancel_room, hm] at h
    split_ifs at h with hle
    exact ⟨hh, rfl, by omega, by
      refine ((Except.ok.injEq _ _).mp h).symm.trans ?_
      rfl⟩

theorem delete_hotel_ok {hotels : HotelStore} {name : String} {hs' : HotelStore}
    (h : delete_hotel hotels name = .ok hs') : hs' = eraseKey name hotels := by
  unfold delete_hotel at h
  split_ifs at h
  exact ((Except.ok.injEq _ _).mp h).symm

theorem create_reservation_ok {s : SysState} {cid hn gid : String}
    {s' : SysState} {r : Reservation}
    (h : create_reservation s cid hn gid = (s', .ok r)) :
    (lookupA cid s.customers).isSome ∧
    ∃ hh : Hotel, lookupA hn s.hotels = some hh ∧
      hh.reserved_rooms < hh.total_rooms ∧
      r = ⟨gid, cid, hn⟩ ∧
      s' = { s with
             hotels := upsert hn { hh with reserved_rooms := hh.reserved_rooms + 1 } s.hotels,
             reservations := upsert gid ⟨gid, cid, hn⟩ s.reservations } := by
  unfold create_reservation at h
  split_ifs at h with h1 h2
  · simp at h
  · simp at h
  · cases hrr : reserve_room s.hotels hn with
    | error e => rw [hrr] at h; simp at h
    | ok hotels' =>
      rw [hrr] at h
      obtain ⟨hh, hm, hlt, hform⟩ := reserve_room_ok hrr
      simp at h
      refine ⟨isSome_of_not_isNone h1, hh, hm, hlt, h.2.symm, ?_⟩
      rw [← h.1, hform]

theorem cancel_reservation_ok {s : SysState} {rid : String} {s' : SysState}
    (h : cancel_reservation s rid = (s', none)) :
    ∃ (r : Reservation) (hh : Hotel),
      lookupA rid s.reservations = some r ∧
      lookupA r.hotel_name s.hotels = some hh ∧
      0 < hh.reserved_rooms ∧
      s' = { s with
             hotels := upsert r.hotel_name
               { hh with reserved_rooms := hh.reserved_rooms - 1 } s.hotels,
             reservations := eraseKey rid s.reservations } := by
  cases hm : lookupA rid s.reservations with
  | none => simp [cancel_reservation, hm] at h
  | some r =>
    simp only [cancel_reservation, hm] at h
    cases hcr : cancel_room s.hotels r.hotel_name with
    | error e => rw [hcr] at h; simp at h
    | ok hotels' =>
      rw [hcr] at h
      obtain ⟨hh, hm2, hpos, hform⟩ := cancel_room_ok hcr
      simp at h
      exact ⟨r, hh, rfl, hm2, hpos, by rw [← h, hform]⟩

/-! ### Reachability -/

/-- The initial state: no store file exists, so every store is empty. -/
def emptyState : SysState := ⟨[], [], []⟩

/-- One public operation of the reservation protocol subset: customer
creation, hotel creation, reservation creation (with a generated id not in
use, i.e. generated ids are distinct), reservation cancellation.  Failing
calls do not change the persisted state and need no transition. -/
inductive StepR : SysState → SysState → Prop where
  | createCustomer (s : SysState) (cid nm em : String) (cs' : CustomerStore)
      (h : create_customer s.customers cid nm em = .ok cs') :
      StepR s { s with customers := cs' }
  | createHotel (s : SysState) (nm loc : String) (tr : Int) (hs' : HotelStore)
      (h : create_hotel s.hotels nm loc tr = .ok hs') :
      StepR s { s with hotels := hs' }
  | createReservation (s : SysState) (cid hn gid : String) (s' : SysState)
      (r : Reservation) (hfresh : lookupA gid s.reservations = none)
      (h : create_reservation s cid hn gid = (s', .ok r)) :
      StepR s s'
  | cancelReservation (s : SysState) (rid : String) (s' : SysState)
      (h : cancel_reservation s rid = (s', none)) :
      StepR s s'

/-- States reachable from empty stores through `StepR`. -/
inductive ReachableR : SysState → Prop where
  | init : ReachableR emptyState
  | step {s s' : SysState} (hr : ReachableR s) (hs : StepR s s') : ReachableR s'

/-- One public operation, over the full operation surface of the three
stores. -/
inductive StepAll : SysState → SysState → Prop where
  | createCustomer (s : SysState) (cid nm em : String) (cs' : CustomerStore)
      (h : create_customer s.customers cid nm em = .ok cs') :
      StepAll s { s with customers := cs' }
  | deleteCustomer (s : SysState) (cid : String) (cs' : CustomerStore)
      (h : delete_customer s.customers cid = .ok cs') :
      StepAll s { s with customers := cs' }
  | modifyCustomer (s : SysState) (cid : String) (nm em : Option String)
      (cs' : CustomerStore) (h : modify_customer s.customers cid nm em = .ok cs') :
      StepAll s { s with customers := cs' }
  | createHotel (s : SysState) (nm loc : String) (tr : Int) (hs' : HotelStore)
      (h : create_hotel s.hotels nm loc tr = .ok hs') :
      StepAll s { s with hotels := hs' }
  | deleteHotel (s : SysState) (nm : String) (hs' : HotelStore)
      (h : delete_hotel s.hotels nm = .ok hs') :
      StepAll s { s with hotels := hs' }
  | modifyHotel (s : SysState) (nm : String) (nn loc : Option String)
      (tr : Option Int) (hs' : HotelStore)
      (h : modify_hotel s.hotels nm nn loc tr = .ok hs') :
      StepAll s { s with hotels := hs' }
  | reserveRoom (s : SysState) (nm : String) (hs' : HotelStore)
      (h : reserve_room s.hotels nm = .ok hs') :
      StepAll s { s with hotels := hs' }
  | cancelRoom (s : SysState) (nm : String) (hs' : HotelStore)
      (h : cancel_room s.hotels nm = .ok hs') :
      StepAll s { s with hotels := hs' }
  | createReservation (s : SysState) (cid hn gid : String) (s' : SysState)
      (r : Reservation) (h : create_reservation s cid hn gid = (s', .ok r)) :
      StepAll s s'
  | cancelReservation (s : SysState) (rid : String) (s' : SysState)
      (h : cancel_reservation s rid = (s', none)) :
      StepAll s s'

/-- States reachable from empty stores through `StepAll`. -/
inductive ReachableAll : SysState → Prop where
  | init : ReachableAll emptyState
  | step {s s' : SysState} (hr : ReachableAll s) (hs : StepAll s s') : ReachableAll s'

/-! ### The reservation-count invariant (claim C1) -/

/-- Every reservation's hotel exists, and every hotel's counter equals the
number of reservation records naming it. -/
def ResSync (s : SysState) : Prop :=
  (∀ p ∈ s.reservations, (lookupA p.2.hotel_name s.hotels).isSome) ∧
  (∀ name hh, lookupA name s.hotels = some hh →
    hh.reserved_rooms = (countResFor name s.reservations : Int))

theorem resSync_empty : ResSync emptyState := by
  constructor
  · intro p hp
    simp [emptyState] at hp
  · intro name hh hm
    simp [emptyState, lookupA] at hm

theorem resSync_step {s s' : SysState} (hstep : StepR s s') (hinv : ResSync s) :
    ResSync s' := by
  obtain ⟨ha, hb⟩ := hinv
  cases hstep with
  | createCustomer cid nm em cs' h =>
    exact ⟨ha, hb⟩
  | createHotel nm loc tr hs' h =>
    obtain ⟨-, -, -, hnone, hform⟩ := create_hotel_ok h
    subst hform
    constructor
    · intro p hp
      rw [lookupA_upsert]
      split
      · simp
      · exact ha p hp
    · intro name hh hm
      rw [lookupA_upsert] at hm
      split at hm
      · rename_i heq
        subst heq
        obtain rfl : (⟨nm, loc, tr, 0⟩ : Hotel) = hh := by simpa using hm
        have hz : countResFor nm s.reservations = 0 := by
          apply countResFor_eq_zero
          intro p hp heqn
          have := ha p hp
          rw [heqn, hnone] at this
          simp at this
        simp [hz]
      · exact hb name hh hm
  | createReservation cid hn gid s2 r hfresh h =>
    obtain ⟨-, hh, hm, hlt, -, hform⟩ := create_reservation_ok h
    subst hform
    have happ : upsert gid (⟨gid, cid, hn⟩ : Reservation) s.reservations =
        s.reservations ++ [(gid, ⟨gid, cid, hn⟩)] := upsert_eq_append _ _ _ hfresh
    constructor
    · intro p hp
      simp only [happ, List.mem_append, List.mem_singleton] at hp
      rw [lookupA_upsert]
      split
      · simp
      · rename_i hne
        rcases hp with hp | hp
        · exact ha p hp
        · subst hp
          simp at hne
    · intro name hh' hm'
      simp only at hm' ⊢
      rw [lookupA_upsert] at hm'
      rw [happ, countResFor_append]
      split at hm'
      · rename_i heq
        subst heq
        obtain rfl : ({ hh with reserved_rooms := hh.reserved_rooms + 1 } : Hotel) = hh' := by
          simpa using hm'
        have hbb := hb hn hh hm
        simp [countResFor] at hbb ⊢
        omega
      · have := hb name hh' hm'
        have hne : (⟨gid, cid, hn⟩ : Reservation).hotel_name ≠ name := by
          rename_i hne2
          simpa using hne2
        simp [countResFor, hne, this]
  | cancelReservation rid s2 h =>
    obtain ⟨r, hh, hmr, hmh, hpos, hform⟩ := cancel_reservation_ok h
    subst hform
    constructor
    · intro p hp
      have hp' : p ∈ s.reservations := mem_of_mem_eraseKey hp
      rw [lookupA_upsert]
      split
      · simp
      · exact ha p hp'
    · intro name hh' hm'
      simp only at hm' ⊢
      rw [lookupA_upsert] at hm'
      split at hm'
      · rename_i heq
        subst heq
        obtain rfl : ({ hh with reserved_rooms := hh.reserved_rooms - 1 } : Hotel) = hh' := by
          simpa using hm'
        have hbefore := hb r.hotel_name hh hmh
        have hcount' := @countResFor_eraseKey r.hotel_name rid r s.reservations hmr
        simp at hcount' hbefore ⊢
        omega
      · have hbefore := hb name hh' hm'
        have hcount' := @countResFor_eraseKey name rid r s.reservations hmr
        rename_i hne
        have hne' : r.hotel_name ≠ name := fun e => hne e
        simp [hne'] at hcount'
        rw [hbefore, hcount']

theorem resSync_of_reachable {s : SysState} (h : ReachableR s) : ResSync s := by
  induction h with
  | init => exact resSync_empty
  | step hr hs ih => exact resSync_step hs ih

/-! ### The capacity-bounds invariant (claim C2) -/

theorem apply_location_ok {h0 h1 : Hotel} {loc : Option String}
    (h : apply_location h0 loc = .ok h1) :
    h1.reserved_rooms = h0.reserved_rooms ∧ h1.total_rooms = h0.total_rooms := by
  cases loc with
  | none =>
    simp [apply_location] at h
    subst h
    exact ⟨rfl, rfl⟩
  | some lv =>
    simp only [apply_location] at h
    split_ifs at h with hv
    obtain rfl := ((Except.ok.injEq _ _).mp h)
    exact ⟨rfl, rfl⟩

theorem apply_total_rooms_ok {h1 h2 : Hotel} {tr : Option Int}
    (h : apply_total_rooms h1 tr = .ok h2) :
    h2.reserved_rooms = h1.reserved_rooms ∧
      (h2.total_rooms = h1.total_rooms ∨
        (0 < h2.total_rooms ∧ h2.reserved_rooms ≤ h2.total_rooms)) := by
  cases tr with
  | none =>
    simp [apply_total_rooms] at h
    subst h
    exact ⟨rfl, Or.inl rfl⟩
  | some tv =>
    simp only [apply_total_rooms] at h
    split_ifs at h with hle hlt
    obtain rfl := ((Except.ok.injEq _ _).mp h)
    refine ⟨rfl, Or.inr ⟨?_, ?_⟩⟩
    · show (0 : Int) < tv
      omega
    · show h1.reserved_rooms ≤ tv
      omega

theorem apply_rename_ok {hotels : HotelStore} {name : String} {h2 : Hotel}
    {nn : Option String} {hs' : HotelStore}
    (h : apply_rename hotels name h2 nn = .ok hs') :
    ∃ (key : String) (hIns : Hotel) (base : HotelStore),
      hIns.reserved_rooms = h2.reserved_rooms ∧
      hIns.total_rooms = h2.total_rooms ∧
      (base = hotels ∨ base = eraseKey name hotels) ∧
      hs' = upsert key hIns base := by
  cases nn with
  | none =>
    simp only [apply_rename] at h
    exact ⟨name, h2, hotels, rfl, rfl, Or.inl rfl,
      ((Except.ok.injEq _ _).mp h).symm⟩
  | some nv =>
    simp only [apply_rename] at h
    split_ifs at h with hne hv hsome
    · exact ⟨nv, { h2 with name := nv }, eraseKey name hotels, rfl, rfl,
        Or.inr rfl, ((Except.ok.injEq _ _).mp h).symm⟩
    · exact ⟨name, h2, hotels, rfl, rfl, Or.inl rfl,
        ((Except.ok.injEq _ _).mp h).symm⟩

theorem modify_hotel_ok {hotels : HotelStore} {name : String}
    {nn loc : Option String} {tr : Option Int} {hs' : HotelStore}
    (h : modify_hotel hotels name nn loc tr = .ok hs') :
    ∃ (h0 : Hotel) (key : String) (hIns : Hotel) (base : HotelStore),
      lookupA name hotels = some h0 ∧
      hIns.reserved_rooms = h0.reserved_rooms ∧
      (hIns.total_rooms = h0.total_rooms ∨
        (0 < hIns.total_rooms ∧ hIns.reserved_rooms ≤ hIns.total_rooms)) ∧
      (base = hotels ∨ base = eraseKey name hotels) ∧
      hs' = upsert key hIns base := by
  cases hm : lookupA name hotels with
  | none => simp [modify_hotel, hm] at h
  | some h0 =>
    simp only [modify_hotel, hm] at h
    cases hl : apply_location h0 loc with
    | error e => rw [hl] at h; simp at h
    | ok h1 =>
      rw [hl] at h
      simp only at h
      cases ht : apply_total_rooms h1 tr with
      | error e => rw [ht] at h; simp at h
      | ok h2 =>
        rw [ht] at h
        simp only at h
        obtain ⟨hr1, ht1⟩ := apply_location_ok hl
        obtain ⟨hr2, ht2⟩ := apply_total_rooms_ok ht
        obtain ⟨key, hIns, base, hrI, htI, hbase, hform⟩ := apply_rename_ok h
        refine ⟨h0, key, hIns, base, rfl, by omega, ?_, hbase, hform⟩
        rcases ht2 with ht2 | ht2
        · exact Or.inl (by omega)
        · exact Or.inr ⟨by omega, by omega⟩

/-- Every hotel record in the store satisfies
`0 ≤ reserved_rooms ≤ total_rooms`. -/
def HotelBounds (s : SysState) : Prop :=
  ∀ p ∈ s.hotels, 0 ≤ p.2.reserved_rooms ∧ p.2.reserved_rooms ≤ p.2.total_rooms

theorem hotelBounds_empty : HotelBounds emptyState := by
  intro p hp
  simp [emptyState] at hp

theorem hotelBounds_upsert {hotels : HotelStore} {key : String} {v : Hotel}
    (hinv : ∀ p ∈ hotels, 0 ≤ p.2.reserved_rooms ∧ p.2.reserved_rooms ≤ p.2.total_rooms)
    (hv : 0 ≤ v.reserved_rooms ∧ v.reserved_rooms ≤ v.total_rooms) :
    ∀ p ∈ upsert key v hotels, 0 ≤ p.2.reserved_rooms ∧ p.2.reserved_rooms ≤ p.2.total_rooms := by
  intro p hp
  rcases mem_upsert_elim hp with rfl | hp'
  · exact hv
  · exact hinv p hp'

theorem hotelBounds_step {s s' : SysState} (hstep : StepAll s s')
    (hinv : HotelBounds s) : HotelBounds s' := by
  cases hstep with
  | createCustomer cid nm em cs' h => exact hinv
  | deleteCustomer cid cs' h => exact hinv
  | modifyCustomer cid nm em cs' h => exact hinv
  | createHotel nm loc tr hs' h =>
    obtain ⟨-, -, htr, -, hform⟩ := create_hotel_ok h
    subst hform
    exact hotelBounds_upsert hinv ⟨le_refl 0, by simpa using le_of_lt htr⟩
  | deleteHotel nm hs' h =>
    obtain hform := delete_hotel_ok h
    subst hform
    intro p hp
    exact hinv p (mem_of_mem_eraseKey hp)
  | modifyHotel nm nn loc tr hs' h =>
    obtain ⟨h0, key, hIns, base, hm, hrI, htI, hbase, hform⟩ := modify_hotel_ok h
    subst hform
    have h0mem := lookupA_some_mem hm
    have h0b := hinv (nm, h0) h0mem
    simp only at h0b
    have hbaseInv : ∀ p ∈ base, 0 ≤ p.2.reserved_rooms ∧ p.2.reserved_rooms ≤ p.2.total_rooms := by
      rcases hbase with rfl | rfl
      · exact hinv
      · intro p hp
        exact hinv p (mem_of_mem_eraseKey hp)
    refine hotelBounds_upsert hbaseInv ?_
    rcases htI with htI | htI
    · constructor <;> omega
    · constructor <;> omega
  | reserveRoom nm hs' h =>
    obtain ⟨hh, hm, hlt, hform⟩ := reserve_room_ok h
    subst hform
    have hb := hinv (nm, hh) (lookupA_some_mem hm)
    simp only at hb
    exact hotelBounds_upsert hinv ⟨by simp; omega, by simp; omega⟩
  | cancelRoom nm hs' h =>
    obtain ⟨hh, hm, hpos, hform⟩ := cancel_room_ok h
    subst hform
    have hb := hinv (nm, hh) (lookupA_some_mem hm)
    simp only at hb
    exact hotelBounds_upsert hinv ⟨by simp; omega, by simp; omega⟩
  | createReservation cid hn gid s2 r h =>
    obtain ⟨-, hh, hm, hlt, -, hform⟩ := create_reservation_ok h
    subst hform
    have hb := hinv (hn, hh) (lookupA_some_mem hm)
    simp only at hb
    intro p hp
    simp only at hp
    exact hotelBounds_upsert hinv ⟨by simp; omega, by simp; omega⟩ p hp
  | cancelReservation rid s2 h =>
    obtain ⟨r, hh, hmr, hmh, hpos, hform⟩ := cancel_reservation_ok h
    subst hform
    have hb := hinv (r.hotel_name, hh) (lookupA_some_mem hmh)
    simp only at hb
    intro p hp
    simp only at hp
    exact hotelBounds_upsert hinv ⟨by simp; omega, by simp; omega⟩ p hp

theorem hotelBounds_of_reachable {s : SysState} (h : ReachableAll s) :
    HotelBounds s := by
  induction h with
  | init => exact hotelBounds_empty
  | step hr hs ih => exact hotelBounds_step hs ih

/-! ### A concrete reachable scenario (spec §8: hotel "Plaza", customer C001) -/

def demoCustomers : CustomerStore := [("C001", ⟨"C001", "Ana", "ana@mail.com"⟩)]

def demoHotels0 : HotelStore := [("Plaza", ⟨"Plaza", "CDMX", 2, 0⟩)]

/-- After creating customer C001, hotel Plaza (2 rooms) and one reservation. -/
def demoState : SysState :=
  ⟨demoCustomers, [("Plaza", ⟨"Plaza", "CDMX", 2, 1⟩)],
   [("resA", ⟨"resA", "C001", "Plaza"⟩)]⟩

theorem demoState_reachableR : ReachableR demoState := by
  have h1 : StepR emptyState ⟨demoCustomers, [], []⟩ :=
    StepR.createCustomer emptyState "C001" "Ana" "ana@mail.com" demoCustomers rfl
  have h2 : StepR ⟨demoCustomers, [], []⟩ ⟨demoCustomers, demoHotels0, []⟩ :=
    StepR.createHotel ⟨demoCustomers, [], []⟩ "Plaza" "CDMX" 2 demoHotels0 rfl
  have h3 : StepR ⟨demoCustomers, demoHotels0, []⟩ demoState :=
    StepR.createReservation ⟨demoCustomers, demoHotels0, []⟩ "C001" "Plaza" "resA"
      demoState ⟨"resA", "C001", "Plaza"⟩ rfl rfl
  exact ReachableR.step (ReachableR.step (ReachableR.step ReachableR.init h1) h2) h3

theorem demoState_reachableAll : ReachableAll demoState := by
  have h1 : StepAll emptyState ⟨demoCustomers, [], []⟩ :=
    StepAll.createCustomer emptyState "C001" "Ana" "ana@mail.com" demoCustomers rfl
  have h2 : StepAll ⟨demoCustomers, [], []⟩ ⟨demoCustomers, demoHotels0, []⟩ :=
    StepAll.createHotel ⟨demoCustomers, [], []⟩ "Plaza" "CDMX" 2 demoHotels0 rfl
  have h3 : StepAll ⟨demoCustomers, demoHotels0, []⟩ demoState :=
    StepAll.createReservation ⟨demoCustomers, demoHotels0, []⟩ "C001" "Plaza" "resA"
      demoState ⟨"resA", "C001", "Plaza"⟩ rfl
  exact ReachableAll.step (ReachableAll.step (ReachableAll.step ReachableAll.init h1) h2) h3

/-! ### Claim theorems -/

/-- C1: in every store state reachable from empty stores using only the
public operations create_customer, create_hotel, create_reservation and
cancel_reservation (with distinct generated reservation ids), each hotel's
reserved_rooms equals the number of reservation records whose hotel_name
field names that hotel. -/
theorem C1_reserved_matches_reservation_records {s : SysState}
    (hs : ReachableR s) :
    ∀ name hh, lookupA name s.hotels = some hh →
      hh.reserved_rooms = (countResFor name s.reservations : Int) :=
  (resSync_of_reachable hs).2

theorem C1_witness :
    (⟨"Plaza", "CDMX", 2, 1⟩ : Hotel).reserved_rooms =
      (countResFor "Plaza" demoState.reservations : Int) :=
  C1_reserved_matches_reservation_records demoState_reachableR "Plaza"
    ⟨"Plaza", "CDMX", 2, 1⟩ rfl

/-- C2: for every hotel record in every store state reachable from empty
stores via the public operations (all customer, hotel and reservation
operations), `0 ≤ reserved_rooms ≤ total_rooms` holds. -/
theorem C2_reserved_within_bounds {s : SysState} (hs : ReachableAll s) :
    ∀ name hh, lookupA name s.hotels = some hh →
      0 ≤ hh.reserved_rooms ∧ hh.reserved_rooms ≤ hh.total_rooms :=
  fun name hh hm => hotelBounds_of_reachable hs (name, hh) (lookupA_some_mem hm)

theorem C2_witness :
    0 ≤ (⟨"Plaza", "CDMX", 2, 1⟩ : Hotel).reserved_rooms ∧
      (⟨"Plaza", "CDMX", 2, 1⟩ : Hotel).reserved_rooms ≤
        (⟨"Plaza", "CDMX", 2, 1⟩ : Hotel).total_rooms :=
  C2_reserved_within_bounds demoState_reachableAll "Plaza"
    ⟨"Plaza", "CDMX", 2, 1⟩ rfl

/-- C3: `reserve_room` fails with NotFound when the hotel name is absent;
when present (and within the capacity invariant reserved ≤ total), it fails
with CapacityExceeded ("No available rooms at ...") exactly when
reserved_rooms = total_rooms, and otherwise increments that hotel's
reserved_rooms by exactly 1, leaving all other fields of the record and all
other hotels unchanged. -/
theorem C3_reserve_room_spec (hotels : HotelStore) (name : String) :
    (lookupA name hotels = none →
      reserve_room hotels name =
        .error (.notFound ("Hotel " ++ name ++ " not found."))) ∧
    (∀ hh, lookupA name hotels = some hh → hh.reserved_rooms ≤ hh.total_rooms →
      (hh.reserved_rooms = hh.total_rooms →
        reserve_room hotels name =
          .error (.capacityExceeded ("No available rooms at " ++ name ++ "."))) ∧
      (hh.reserved_rooms < hh.total_rooms →
        reserve_room hotels name =
          .ok (upsert name
            { name := hh.name, location := hh.location,
              total_rooms := hh.total_rooms,
              reserved_rooms := hh.reserved_rooms + 1 } hotels) ∧
        ∀ other, other ≠ name →
          lookupA other (upsert name
            { name := hh.name, location := hh.location,
              total_rooms := hh.total_rooms,
              reserved_rooms := hh.reserved_rooms + 1 } hotels) =
            lookupA other hotels)) := by
  constructor
  · intro hm
    simp [reserve_room, hm]
  · intro hh hm hle
    constructor
    · intro heq
      simp only [reserve_room, hm]
      rw [if_pos (by omega)]
    · intro hlt
      constructor
      · simp only [reserve_room, hm]
        rw [if_neg (by omega)]
      · intro other hne
        rw [lookupA_upsert]
        rw [if_neg fun e => hne e.symm]

theorem C3_witness :
    (reserve_room [] "Plaza" =
      .error (.notFound ("Hotel " ++ "Plaza" ++ " not found."))) ∧
    (reserve_room [("Plaza", ⟨"Plaza", "CDMX", 2, 2⟩)] "Plaza" =
      .error (.capacityExceeded ("No available rooms at " ++ "Plaza" ++ "."))) ∧
    (reserve_room [("Plaza", ⟨"Plaza", "CDMX", 2, 1⟩)] "Plaza" =
      .ok (upsert "Plaza"
        ({ name := "Plaza", location := "CDMX", total_rooms := 2,
           reserved_rooms := (1 : Int) + 1 } : Hotel) [("Plaza", ⟨"Plaza", "CDMX", 2, 1⟩)]) ∧
      lookupA "Ritz" (upsert "Plaza"
        ({ name := "Plaza", location := "CDMX", total_rooms := 2,
           reserved_rooms := (1 : Int) + 1 } : Hotel) [("Plaza", ⟨"Plaza", "CDMX", 2, 1⟩)]) =
        lookupA "Ritz" [("Plaza", ⟨"Plaza", "CDMX", 2, 1⟩)]) :=
  by
  refine ⟨?_, ?_, ?_, ?_⟩
  · exact (C3_reserve_room_spec [] "Plaza").1 rfl
  · exact ((C3_reserve_room_spec [("Plaza", ⟨"Plaza", "CDMX", 2, 2⟩)] "Plaza").2
      ⟨"Plaza", "CDMX", 2, 2⟩ rfl (by decide)).1 (by decide)
  · exact (((C3_reserve_room_spec [("Plaza", ⟨"Plaza", "CDMX", 2, 1⟩)] "Plaza").2
      ⟨"Plaza", "CDMX", 2, 1⟩ rfl (by decide)).2 (by decide)).1
  · exact (((C3_reserve_room_spec [("Plaza", ⟨"Plaza", "CDMX", 2, 1⟩)] "Plaza").2
      ⟨"Plaza", "CDMX", 2, 1⟩ rfl (by decide)).2 (by decide)).2 "Ritz" (by decide)

/-- C4: `create_reservation` fails with NotFound when the customer or the
hotel is absent, leaving every store unchanged; any `reserve_room` failure
(such as CapacityExceeded) propagates unchanged with no reservation record
written and both stores unchanged; only when the increment succeeds is the
new reservation record persisted. -/
theorem C4_create_reservation_spec (s : SysState) (cid hn gid : String) :
    (lookupA cid s.customers = none →
      create_reservation s cid hn gid =
        (s, .error (.notFound ("Customer " ++ cid ++ " not found.")))) ∧
    ((lookupA cid s.customers).isSome → lookupA hn s.hotels = none →
      create_reservation s cid hn gid =
        (s, .error (.notFound ("Hotel " ++ hn ++ " not found.")))) ∧
    (∀ e, (lookupA cid s.customers).isSome → (lookupA hn s.hotels).isSome →
      reserve_room s.hotels hn = .error e →
      create_reservation s cid hn gid = (s, .error e)) ∧
    (∀ hotels', (lookupA cid s.customers).isSome → (lookupA hn s.hotels).isSome →
      reserve_room s.hotels hn = .ok hotels' →
      create_reservation s cid hn gid =
        ({ s with hotels := hotels',
                  reservations := upsert gid ⟨gid, cid, hn⟩ s.reservations },
         .ok ⟨gid, cid, hn⟩)) := by
  refine ⟨?_, ?_, ?_, ?_⟩
  · intro hm
    simp [create_reservation, hm]
  · intro hc hm
    obtain ⟨c, hc⟩ := Option.isSome_iff_exists.mp hc
    simp [create_reservation, hc, hm]
  · intro e hc hh herr
    obtain ⟨c, hc⟩ := Option.isSome_iff_exists.mp hc
    obtain ⟨hv, hh⟩ := Option.isSome_iff_exists.mp hh
    simp [create_reservation, hc, hh, herr]
  · intro hotels' hc hh hok
    obtain ⟨c, hc⟩ := Option.isSome_iff_exists.mp hc
    obtain ⟨hv, hh⟩ := Option.isSome_iff_exists.mp hh
    simp [create_reservation, hc, hh, hok]

theorem C4_witness :
    (create_reservation ⟨[], [], []⟩ "C009" "Plaza" "resA" =
      (⟨[], [], []⟩, .error (.notFound ("Customer " ++ "C009" ++ " not found.")))) ∧
    (create_reservation ⟨demoCustomers, [], []⟩ "C001" "Plaza" "resA" =
      (⟨demoCustomers, [], []⟩,
       .error (.notFound ("Hotel " ++ "Plaza" ++ " not found.")))) ∧
    (create_reservation ⟨demoCustomers, [("Plaza", ⟨"Plaza", "CDMX", 1, 1⟩)], []⟩
        "C001" "Plaza" "resA" =
      (⟨demoCustomers, [("Plaza", ⟨"Plaza", "CDMX", 1, 1⟩)], []⟩,
       .error (.capacityExceeded ("No available rooms at " ++ "Plaza" ++ ".")))) ∧
    (create_reservation ⟨demoCustomers, demoHotels0, []⟩ "C001" "Plaza" "resA" =
      ({ customers := demoCustomers,
         hotels := upsert "Plaza" ⟨"Plaza", "CDMX", 2, 0 + 1⟩ demoHotels0,
         reservations := upsert "resA" ⟨"resA", "C001", "Plaza"⟩ [] },
       .ok ⟨"resA", "C001", "Plaza"⟩)) := by
  refine ⟨?_, ?_, ?_, ?_⟩
  · exact (C4_create_reservation_spec ⟨[], [], []⟩ "C009" "Plaza" "resA").1 rfl
  · exact (C4_create_reservation_spec ⟨demoCustomers, [], []⟩ "C001" "Plaza" "resA").2.1
      (by decide) rfl
  · exact (C4_create_reservation_spec
      ⟨demoCustomers, [("Plaza", ⟨"Plaza", "CDMX", 1, 1⟩)], []⟩ "C001" "Plaza" "resA").2.2.1
      (.capacityExceeded ("No available rooms at " ++ "Plaza" ++ "."))
      (by decide) (by decide) rfl
  · exact (C4_create_reservation_spec
      ⟨demoCustomers, demoHotels0, []⟩ "C001" "Plaza" "resA").2.2.2
      (upsert "Plaza" ⟨"Plaza", "CDMX", 2, 0 + 1⟩ demoHotels0)
      (by decide) (by decide) rfl

/-- C5: `cancel_reservation` fails with NotFound when the id is absent (so
cancelling the same id twice makes the second call fail with NotFound rather
than being a no-op); when present it invokes `cancel_room` on the captured
hotel_name, propagating any failure with the record left in place; on success
it decrements that hotel's reserved_rooms by 1 and removes exactly that
reservation record. -/
theorem C5_cancel_reservation_spec (s : SysState) (rid : String) :
    (lookupA rid s.reservations = none →
      cancel_reservation s rid =
        (s, some (.notFound ("Reservation " ++ rid ++ " not found.")))) ∧
    (∀ r e, lookupA rid s.reservations = some r →
      cancel_room s.hotels r.hotel_name = .error e →
      cancel_reservation s rid = (s, some e)) ∧
    (∀ r hh, lookupA rid s.reservations = some r →
      lookupA r.hotel_name s.hotels = some hh → 0 < hh.reserved_rooms →
      cancel_reservation s rid =
        ({ s with
           hotels := upsert r.hotel_name
             { name := hh.name, location := hh.location,
               total_rooms := hh.total_rooms,
               reserved_rooms := hh.reserved_rooms - 1 } s.hotels,
           reservations := eraseKey rid s.reservations }, none) ∧
      ((keysOf s.reservations).Nodup →
        cancel_reservation
          { s with
            hotels := upsert r.hotel_name
              { name := hh.name, location := hh.location,
                total_rooms := hh.total_rooms,
                reserved_rooms := hh.reserved_rooms - 1 } s.hotels,
            reservations := eraseKey rid s.reservations } rid =
          ({ s with
             hotels := upsert r.hotel_name
               { name := hh.name, location := hh.location,
                 total_rooms := hh.total_rooms,
                 reserved_rooms := hh.reserved_rooms - 1 } s.hotels,
             reservations := eraseKey rid s.reservations },
           some (.notFound ("Reservation " ++ rid ++ " not found."))))) := by
  refine ⟨?_, ?_, ?_⟩
  · intro hm
    simp [cancel_reservation, hm]
  · intro r e hm herr
    simp [cancel_reservation, hm, herr]
  · intro r hh hm hmh hpos
    have hcr : cancel_room s.hotels r.hotel_name =
        .ok (upsert r.hotel_name
          { name := hh.name, location := hh.location,
            total_rooms := hh.total_rooms,
            reserved_rooms := hh.reserved_rooms - 1 } s.hotels) := by
      simp only [cancel_room, hmh]
      rw [if_neg (by omega)]
    constructor
    · simp [cancel_reservation, hm, hcr]
    · intro hnd
      have hgone : lookupA rid (eraseKey rid s.reservations) = none :=
        lookupA_eraseKey_self hnd
      simp [cancel_reservation, hgone]

/-- The persisted state after cancelling the single reservation of
`demoState`. -/
def c5Post : SysState :=
  ⟨demoCustomers, [("Plaza", ⟨"Plaza", "CDMX", 2, 0⟩)], []⟩

theorem C5_witness :
    (cancel_reservation ⟨[], [], []⟩ "resZ" =
      (⟨[], [], []⟩, some (.notFound ("Reservation " ++ "resZ" ++ " not found.")))) ∧
    (cancel_reservation
        ⟨demoCustomers, [("Plaza", ⟨"Plaza", "CDMX", 2, 0⟩)],
         [("resA", ⟨"resA", "C001", "Plaza"⟩)]⟩ "resA" =
      (⟨demoCustomers, [("Plaza", ⟨"Plaza", "CDMX", 2, 0⟩)],
        [("resA", ⟨"resA", "C001", "Plaza"⟩)]⟩,
       some (.invalidState ("No reservations to cancel at " ++ "Plaza" ++ ".")))) ∧
    (cancel_reservation demoState "resA" = (c5Post, none)) ∧
    (cancel_reservation c5Post "resA" =
      (c5Post, some (.notFound ("Reservation " ++ "resA" ++ " not found.")))) := by
  refine ⟨?_, ?_, ?_, ?_⟩
  · exact (C5_cancel_reservation_spec ⟨[], [], []⟩ "resZ").1 rfl
  · exact (C5_cancel_reservation_spec
      ⟨demoCustomers, [("Plaza", ⟨"Plaza", "CDMX", 2, 0⟩)],
       [("resA", ⟨"resA", "C001", "Plaza"⟩)]⟩ "resA").2.1
      ⟨"resA", "C001", "Plaza"⟩
      (.invalidState ("No reservations to cancel at " ++ "Plaza" ++ ".")) rfl rfl
  · exact ((C5_cancel_reservation_spec demoState "resA").2.2
      ⟨"resA", "C001", "Plaza"⟩ ⟨"Plaza", "CDMX", 2, 1⟩ rfl rfl (by decide)).1
  · exact ((C5_cancel_reservation_spec demoState "resA").2.2
      ⟨"resA", "C001", "Plaza"⟩ ⟨"Plaza", "CDMX", 2, 1⟩ rfl rfl (by decide)).2
      (by decide)

/-! ### Claim C6: id collision on create_reservation -/

/-- A state satisfying the counter invariant: customers C001 and C002, hotel
Plaza with one room reserved, and the matching reservation resA held by
C002. -/
def c6Before : SysState :=
  ⟨[("C001", ⟨"C001", "Ana", "ana@mail.com"⟩),
    ("C002", ⟨"C002", "Luis", "luis@mail.com"⟩)],
   [("Plaza", ⟨"Plaza", "CDMX", 5, 1⟩)],
   [("resA", ⟨"resA", "C002", "Plaza"⟩)]⟩

/-- The state after `create_reservation c6Before "C001" "Plaza" "resA"`. -/
def c6After : SysState :=
  ⟨[("C001", ⟨"C001", "Ana", "ana@mail.com"⟩),
    ("C002", ⟨"C002", "Luis", "luis@mail.com"⟩)],
   [("Plaza", ⟨"Plaza", "CDMX", 5, 2⟩)],
   [("resA", ⟨"resA", "C001", "Plaza"⟩)]⟩

/-- C6: `create_reservation` performs no uniqueness check of the generated id
against existing reservation keys: with generator output "resA" equal to the
already-present reservation id, the call succeeds (no AlreadyExists) and
overwrites the prior record (same store length, new record under the key),
while the hotel counter is still incremented — leaving the overwritten
reservation's increment with no matching record (counter 2 against a single
record). -/
theorem C6_id_collision_overwrites :
    create_reservation c6Before "C001" "Plaza" "resA" =
      (c6After, .ok ⟨"resA", "C001", "Plaza"⟩) ∧
    lookupA "resA" c6Before.reservations = some ⟨"resA", "C002", "Plaza"⟩ ∧
    lookupA "resA" c6After.reservations = some ⟨"resA", "C001", "Plaza"⟩ ∧
    c6After.reservations.length = c6Before.reservations.length ∧
    (⟨"Plaza", "CDMX", 5, 1⟩ : Hotel).reserved_rooms =
      (countResFor "Plaza" c6Before.reservations : Int) ∧
    lookupA "Plaza" c6After.hotels = some ⟨"Plaza", "CDMX", 5, 2⟩ ∧
    (⟨"Plaza", "CDMX", 5, 2⟩ : Hotel).reserved_rooms ≠
      (countResFor "Plaza" c6After.reservations : Int) := by
  refine ⟨rfl, rfl, rfl, rfl, by decide, rfl, by decide⟩

/-! ### Claim C7: modify with an earlier valid and a later invalid field -/

def c7Store : CustomerStore := [("C001", ⟨"C001", "Ana", "ana@mail.com"⟩)]

/-- C7 counterexample: `modify_customer` with a valid new_name "Alicia" and an
empty new_email fails with InvalidInput, but the persisted record still
carries the OLD name "Ana" — not the partially-modified state the claim
asserts, because the store is only saved after all field validations pass. -/
theorem C7_counterexample :
    modify_customer c7Store "C001" (some "Alicia") (some "") =
      .error (.invalidInput "Email must be a non-empty string.") ∧
    lookupA "C001"
      (persistedAfter c7Store
        (modify_customer c7Store "C001" (some "Alicia") (some ""))) =
      some ⟨"C001", "Ana", "ana@mail.com"⟩ ∧
    ("Ana" : String) ≠ "Alicia" := by
  refine ⟨rfl, rfl, by decide⟩

/-- C7 (amended): when `modify_customer` (or `modify_hotel`) is given an
earlier valid optional field and a later invalid one, the call fails with
InvalidInput and the persisted record is unchanged — the in-memory partial
modification is discarded because the store is saved only after every
provided field validates. -/
theorem C7_modify_partial_failure_leaves_store_unchanged
    (cs : CustomerStore) (hotels : HotelStore) (cid hname nm lv : String)
    (c : Customer) (hh : Hotel) :
    (lookupA cid cs = some c → nm ≠ "" →
      modify_customer cs cid (some nm) (some "") =
        .error (.invalidInput "Email must be a non-empty string.") ∧
      persistedAfter cs (modify_customer cs cid (some nm) (some "")) = cs) ∧
    (lookupA hname hotels = some hh → lv ≠ "" →
      modify_hotel hotels hname none (some lv) (some 0) =
        .error (.invalidInput "Total rooms must be a positive integer.") ∧
      persistedAfter hotels (modify_hotel hotels hname none (some lv) (some 0)) =
        hotels) := by
  constructor
  · intro hm hnm
    have herr : modify_customer cs cid (some nm) (some "") =
        .error (.invalidInput "Email must be a non-empty string.") := by
      simp [modify_customer, hm, hnm]
    exact ⟨herr, by rw [herr]; rfl⟩
  · intro hm hlv
    have herr : modify_hotel hotels hname none (some lv) (some 0) =
        .error (.invalidInput "Total rooms must be a positive integer.") := by
      simp only [modify_hotel, hm]
      have hl : apply_location hh (some lv) = .ok { hh with location := lv } := by
        simp [apply_location, hlv]
      rw [hl]
      simp only
      have ht : apply_total_rooms { hh with location := lv } (some 0) =
          .error (.invalidInput "Total rooms must be a positive integer.") := by
        simp [apply_total_rooms]
      rw [ht]
    exact ⟨herr, by rw [herr]; rfl⟩

theorem C7_witness :
    (modify_customer c7Store "C001" (some "Alicia") (some "") =
      .error (.invalidInput "Email must be a non-empty string.") ∧
     persistedAfter c7Store
       (modify_customer c7Store "C001" (some "Alicia") (some "")) = c7Store) ∧
    (modify_hotel demoHotels0 "Plaza" none (some "GDL") (some 0) =
      .error (.invalidInput "Total rooms must be a positive integer.") ∧
     persistedAfter demoHotels0
       (modify_hotel demoHotels0 "Plaza" none (some "GDL") (some 0)) =
       demoHotels0) := by
  refine ⟨?_, ?_⟩
  · exact (C7_modify_partial_failure_leaves_store_unchanged c7Store demoHotels0
      "C001" "Plaza" "Alicia" "GDL" ⟨"C001", "Ana", "ana@mail.com"⟩
      ⟨"Plaza", "CDMX", 2, 0⟩).1 rfl (by decide)
  · exact (C7_modify_partial_failure_leaves_store_unchanged c7Store demoHotels0
      "C001" "Plaza" "Alicia" "GDL" ⟨"C001", "Ana", "ana@mail.com"⟩
      ⟨"Plaza", "CDMX", 2, 0⟩).2 rfl (by decide)

/-- C8: `modify_hotel` rename behaviour.  With a new_name differing from the
current name it fails with AlreadyExists when new_name is already a key;
otherwise the record is moved from the old key to new_name, preserving
reserved_rooms and the location/total_rooms changes applied in the same call;
a new_name equal to the current name leaves the store's key set unchanged. -/
theorem C8_modify_hotel_rename (hotels : HotelStore) (name nn lv : String)
    (tv : Int) (hh : Hotel) :
    (lookupA name hotels = some hh → nn ≠ name → nn ≠ "" →
      (lookupA nn hotels).isSome →
      modify_hotel hotels name (some nn) none none =
        .error (.alreadyExists ("Hotel " ++ nn ++ " already exists."))) ∧
    (lookupA name hotels = some hh → nn ≠ name → nn ≠ "" →
      lookupA nn hotels = none → lv ≠ "" → 0 < tv → hh.reserved_rooms ≤ tv →
      modify_hotel hotels name (some nn) (some lv) (some tv) =
        .ok (upsert nn ⟨nn, lv, tv, hh.reserved_rooms⟩ (eraseKey name hotels))) ∧
    (lookupA name hotels = some hh →
      modify_hotel hotels name (some name) none none =
        .ok (upsert name hh hotels) ∧
      keysOf (upsert name hh hotels) = keysOf hotels) := by
  refine ⟨?_, ?_, ?_⟩
  · intro hm hne hv hsome
    simp only [modify_hotel, hm, apply_location, apply_total_rooms, apply_rename]
    rw [if_pos hne, if_neg hv, if_pos hsome]
  · intro hm hne hv hnone hlv htv hres
    simp only [modify_hotel, hm, apply_location]
    rw [if_neg hlv]
    simp only [apply_total_rooms]
    rw [if_neg (by omega), if_neg (by show ¬ tv < hh.reserved_rooms; omega)]
    simp only [apply_rename]
    rw [if_pos hne, if_neg hv, if_neg (by simp [hnone])]
  · intro hm
    constructor
    · simp only [modify_hotel, hm, apply_location, apply_total_rooms, apply_rename]
      rw [if_neg (by simp)]
    · exact keysOf_upsert_of_isSome hh (by rw [hm]; rfl)

theorem C8_witness :
    (modify_hotel [("Plaza", ⟨"Plaza", "CDMX", 2, 1⟩), ("Ritz", ⟨"Ritz", "GDL", 3, 0⟩)]
        "Plaza" (some "Ritz") none none =
      .error (.alreadyExists ("Hotel " ++ "Ritz" ++ " already exists."))) ∧
    (modify_hotel [("Plaza", ⟨"Plaza", "CDMX", 2, 1⟩)] "Plaza"
        (some "Palacio") (some "GDL") (some 4) =
      .ok (upsert "Palacio" ⟨"Palacio", "GDL", 4, (1 : Int)⟩
        (eraseKey "Plaza" [("Plaza", ⟨"Plaza", "CDMX", 2, 1⟩)]))) ∧
    (modify_hotel [("Plaza", ⟨"Plaza", "CDMX", 2, 1⟩)] "Plaza"
        (some "Plaza") none none =
      .ok (upsert "Plaza" ⟨"Plaza", "CDMX", 2, 1⟩ [("Plaza", ⟨"Plaza", "CDMX", 2, 1⟩)]) ∧
     keysOf (upsert "Plaza" (⟨"Plaza", "CDMX", 2, 1⟩ : Hotel)
         [("Plaza", ⟨"Plaza", "CDMX", 2, 1⟩)]) =
       keysOf [("Plaza", (⟨"Plaza", "CDMX", 2, 1⟩ : Hotel))]) := by
  refine ⟨?_, ?_, ?_⟩
  · exact (C8_modify_hotel_rename
      [("Plaza", ⟨"Plaza", "CDMX", 2, 1⟩), ("Ritz", ⟨"Ritz", "GDL", 3, 0⟩)]
      "Plaza" "Ritz" "x" 1 ⟨"Plaza", "CDMX", 2, 1⟩).1 rfl (by decide) (by decide) rfl
  · exact (C8_modify_hotel_rename [("Plaza", ⟨"Plaza", "CDMX", 2, 1⟩)]
      "Plaza" "Palacio" "GDL" 4 ⟨"Plaza", "CDMX", 2, 1⟩).2.1 rfl (by decide)
      (by decide) rfl (by decide) (by decide) (by decide)
  · exact (C8_modify_hotel_rename [("Plaza", ⟨"Plaza", "CDMX", 2, 1⟩)]
      "Plaza" "Plaza" "x" 1 ⟨"Plaza", "CDMX", 2, 1⟩).2.2 rfl

/-- C9: for every Customer, Hotel and Reservation record, `from_dict`
composed with `to_dict` yields a record field-for-field equal to the
original; and deserializing a hotel mapping lacking the reserved_rooms key
yields a hotel with reserved_rooms = 0. -/
theorem C9_serialization_roundtrip :
    (∀ c : Customer, Customer.from_dict (Customer.to_dict c) = c) ∧
    (∀ hh : Hotel, Hotel.from_dict (Hotel.to_dict hh) = hh) ∧
    (∀ r : Reservation, Reservation.from_dict (Reservation.to_dict r) = r) ∧
    (∀ (nm lv : String) (tv : Int),
      (Hotel.from_dict ⟨nm, lv, tv, none⟩).reserved_rooms = 0) :=
  ⟨fun _ => rfl, fun _ => rfl, fun _ => rfl, fun _ _ _ => rfl⟩

/-- C10: for every store, loading when the backing file is absent returns an
empty mapping (printing nothing), and loading a file whose content fails to
parse returns an empty mapping while emitting a diagnostic to standard output
instead of raising. -/
theorem C10_load_missing_or_corrupt :
    (load_hotels .missing = ([], []) ∧
     load_customers .missing = ([], []) ∧
     load_reservations .missing = ([], [])) ∧
    (∀ err : String,
      load_hotels (.corrupt err) =
        ([], ["Warning: hotels file is corrupt (" ++ err ++ "). Using empty store."]) ∧
      load_customers (.corrupt err) =
        ([], ["Warning: customers file is corrupt (" ++ err ++ "). Using empty store."]) ∧
      load_reservations (.corrupt err) =
        ([], ["Warning: reservations file is corrupt (" ++ err ++ "). Using empty store."])) :=
  ⟨⟨rfl, rfl, rfl⟩, fun _ => ⟨rfl, rfl, rfl⟩⟩
